import Mathlib

/-!
Shallow embedding of the railway optimization core
(`app/core/optimization_engine.py`) and of the train admission boundary
(`app/models/schemas.py`, `app/api/trains.py`).

Times (`datetime` values) are modelled as rational seconds since the epoch;
`datetime.timestamp()` is then the identity and arithmetic on datetimes is
plain rational arithmetic.  Python floats are modelled as exact rationals.
The engine's train dictionary is modelled as a list in insertion order whose
`id`s are pairwise distinct where a claim needs it.
-/

namespace Railway

/-- Python's binary `max` on rationals, written with `if` as kernel-friendly
definition.  Equal to `max` (see `pyMax_eq_max`). -/
def pyMax (a b : ℚ) : ℚ := if a ≤ b then b else a

/-- Python's `abs` on rationals, written with `if` as kernel-friendly
definition.  Equal to `|·|` (see `pyAbs_eq_abs`). -/
def pyAbs (a : ℚ) : ℚ := if a < 0 then -a else a

/-- Python's `int()` applied to a rational: truncation toward zero. -/
def pyInt (q : ℚ) : ℤ := if 0 ≤ q then ⌊q⌋ else ⌈q⌉

/-- The `Train` dataclass of `optimization_engine.py`. -/
structure Train where
  id : String
  train_number : String
  train_type : String
  priority : ℤ
  origin : String
  destination : String
  scheduled_departure : ℚ
  scheduled_arrival : ℚ
  current_location : String
  speed : ℚ
  length : ℚ
  weight : ℚ
  status : String
deriving DecidableEq

/-- One entry of a conflict's `resolution_options` list: a dict with an
`action`, a `train_id` and optionally a `delay_minutes` value. -/
structure ResolutionOption where
  action : String
  train_id : String
  delay_minutes : Option ℚ
deriving DecidableEq

/-- The `Conflict` dataclass of `optimization_engine.py`. -/
structure Conflict where
  train1_id : String
  train2_id : String
  section_id : String
  conflict_type : String
  severity : ℚ
  resolution_options : List ResolutionOption
deriving DecidableEq

/-- `max(train1.length/train1.speed*3.6, train2.length/train2.speed*3.6, 120)`
from `_check_headway_conflict`. -/
def minHeadway (t1 t2 : Train) : ℚ :=
  pyMax (pyMax (t1.length / t1.speed * 3.6) (t2.length / t2.speed * 3.6)) 120

/-- `OptimizationEngine._check_headway_conflict`. -/
def checkHeadwayConflict (t1 t2 : Train) : Option Conflict :=
  if t1.current_location = t2.current_location then
    let min_headway := minHeadway t1 t2
    let time_diff := pyAbs (t1.scheduled_departure - t2.scheduled_departure)
    if time_diff < min_headway then
      some
        { train1_id := t1.id
          train2_id := t2.id
          section_id := t1.current_location
          conflict_type := "headway"
          severity := 1 - time_diff / min_headway
          resolution_options :=
            [⟨"delay_train", t1.id, some (min_headway / 60)⟩,
             ⟨"delay_train", t2.id, some (min_headway / 60)⟩,
             ⟨"reroute_train", t1.id, none⟩,
             ⟨"reroute_train", t2.id, none⟩] }
    else none
  else none

/-- `OptimizationEngine._check_platform_conflict`. -/
def checkPlatformConflict (t1 t2 : Train) : Option Conflict :=
  if t1.destination = t2.destination ∧
      pyAbs (t1.scheduled_arrival - t2.scheduled_arrival) < 300 then
    some
      { train1_id := t1.id
        train2_id := t2.id
        section_id := t1.destination
        conflict_type := "platform"
        severity := 0.8
        resolution_options :=
          [⟨"delay_train", t1.id, some 10⟩,
           ⟨"delay_train", t2.id, some 10⟩,
           ⟨"change_platform", t1.id, none⟩,
           ⟨"change_platform", t2.id, none⟩] }
  else none

/-- Contribution of one ordered pair of the double loop in
`detect_conflicts`: nothing unless `train1.id < train2.id`, otherwise the
headway check's result followed by the platform check's result. -/
def pairChecks (t1 t2 : Train) : List Conflict :=
  if t1.id < t2.id then
    (checkHeadwayConflict t1 t2).toList ++ (checkPlatformConflict t1 t2).toList
  else []

/-- `OptimizationEngine.detect_conflicts`: the double loop over the train
dictionary (in insertion order), skipping pairs with
`train1_id >= train2_id`. -/
def detectConflicts (ts : List Train) : List Conflict :=
  ts.flatMap fun t1 => ts.flatMap fun t2 => pairChecks t1 t2

/-- The condition under which `_check_headway_conflict` emits a conflict. -/
def headwayCond (t1 t2 : Train) : Prop :=
  t1.current_location = t2.current_location ∧
    pyAbs (t1.scheduled_departure - t2.scheduled_departure) < minHeadway t1 t2

instance (t1 t2 : Train) : Decidable (headwayCond t1 t2) := by
  unfold headwayCond; infer_instance

/-- The condition under which `_check_platform_conflict` emits a conflict. -/
def platformCond (t1 t2 : Train) : Prop :=
  t1.destination = t2.destination ∧
    pyAbs (t1.scheduled_arrival - t2.scheduled_arrival) < 300

instance (t1 t2 : Train) : Decidable (platformCond t1 t2) := by
  unfold platformCond; infer_instance

/-- The headway conflict record `_check_headway_conflict` builds. -/
def headwayRecord (t1 t2 : Train) : Conflict :=
  { train1_id := t1.id
    train2_id := t2.id
    section_id := t1.current_location
    conflict_type := "headway"
    severity := 1 - pyAbs (t1.scheduled_departure - t2.scheduled_departure) / minHeadway t1 t2
    resolution_options :=
      [⟨"delay_train", t1.id, some (minHeadway t1 t2 / 60)⟩,
       ⟨"delay_train", t2.id, some (minHeadway t1 t2 / 60)⟩,
       ⟨"reroute_train", t1.id, none⟩,
       ⟨"reroute_train", t2.id, none⟩] }

/-- The platform conflict record `_check_platform_conflict` builds. -/
def platformRecord (t1 t2 : Train) : Conflict :=
  { train1_id := t1.id
    train2_id := t2.id
    section_id := t1.destination
    conflict_type := "platform"
    severity := 0.8
    resolution_options :=
      [⟨"delay_train", t1.id, some 10⟩,
       ⟨"delay_train", t2.id, some 10⟩,
       ⟨"change_platform", t1.id, none⟩,
       ⟨"change_platform", t2.id, none⟩] }

/-- Does a conflict record a headway conflict between the trains with ids
`x` and `y` (in either orientation)? -/
def isHeadwayFor (x y : String) (c : Conflict) : Bool :=
  (c.conflict_type == "headway") &&
    ((c.train1_id == x && c.train2_id == y) || (c.train1_id == y && c.train2_id == x))

/-- Does a conflict record a platform conflict between the trains with ids
`x` and `y` (in either orientation)? -/
def isPlatformFor (x y : String) (c : Conflict) : Bool :=
  (c.conflict_type == "platform") &&
    ((c.train1_id == x && c.train2_id == y) || (c.train1_id == y && c.train2_id == x))

/-! ### The CP model built by `optimize_schedule` -/

/-- `int(train.scheduled_departure.timestamp() / 60)`. -/
def baseDeparture (t : Train) : ℤ := pyInt (t.scheduled_departure / 60)

/-- `int(train.scheduled_arrival.timestamp() / 60)`. -/
def baseArrival (t : Train) : ℤ := pyInt (t.scheduled_arrival / 60)

/-- An assignment to the CP model's variables: the per-train integer
variables `departure_{id}`, `arrival_{id}`, `delay_{id}`, and the two
enforcement literals `train1_first_{id1}_{id2}` and
`train2_first_{id1}_{id2}` created per headway conflict. -/
structure Assign where
  dep : String → ℤ
  arr : String → ℤ
  delay : String → ℤ
  firstSel : String → String → Bool
  secondSel : String → String → Bool

/-- The per-train variable ranges and the `delay = departure - base_departure`
constraint added for every train in `optimize_schedule`. -/
def varBounds (t : Train) (a : Assign) : Prop :=
  baseDeparture t ≤ a.dep t.id ∧ a.dep t.id ≤ baseDeparture t + 60 ∧
  baseArrival t ≤ a.arr t.id ∧ a.arr t.id ≤ baseArrival t + 60 ∧
  0 ≤ a.delay t.id ∧ a.delay t.id ≤ 60 ∧
  a.delay t.id = a.dep t.id - baseDeparture t

/-- The two half-constraints `optimize_schedule` adds per headway conflict.
Each is guarded (`OnlyEnforceIf`) by its own fresh boolean literal; the
source never links the two literals, so both may be false. -/
def headwayEnforce (c : Conflict) (a : Assign) : Prop :=
  (a.firstSel c.train1_id c.train2_id = true →
      a.dep c.train1_id + 5 ≤ a.dep c.train2_id) ∧
  (a.secondSel c.train1_id c.train2_id = true →
      a.dep c.train2_id + 5 ≤ a.dep c.train1_id)

/-- An assignment satisfies every constraint `optimize_schedule` puts in the
CP model: variable bounds for every train, and, for every conflict of type
`"headway"`, the two guarded ordering constraints. -/
def isFeasible (ts : List Train) (cs : List Conflict) (a : Assign) : Prop :=
  (∀ t ∈ ts, varBounds t a) ∧
    ∀ c ∈ cs, c.conflict_type = "headway" → headwayEnforce c a

/-- The objective `sum(delay_{id} * (1.0 / priority))` of `optimize_schedule`. -/
def objective (ts : List Train) (a : Assign) : ℚ :=
  (ts.map fun t => (a.delay t.id : ℚ) * (1 / (t.priority : ℚ))).sum

/-- The assignment is feasible and minimizes the objective: what the CP-SAT
solver certifies when it answers `OPTIMAL`. -/
def isOptimal (ts : List Train) (cs : List Conflict) (a : Assign) : Prop :=
  isFeasible ts cs a ∧ ∀ b, isFeasible ts cs b → objective ts a ≤ objective ts b

/-- The dictionary `optimize_schedule` returns on `OPTIMAL`/`FEASIBLE`:
departure/arrival times in minutes since the epoch (the source turns them
back into datetimes by `fromtimestamp(value * 60)`), per-train delays, the
total delay, and `conflicts_resolved = len(self.conflicts)`. -/
structure OptResult where
  status : String
  departure_time : String → ℤ
  arrival_time : String → ℤ
  delay_minutes : String → ℤ
  total_delay : ℤ
  conflicts_resolved : ℕ

/-- Builds the returned dictionary from the solver's assignment;
`foundOptimal` records whether the solver status was `OPTIMAL` (as opposed
to `FEASIBLE`). -/
def mkOptResult (ts : List Train) (cs : List Conflict) (foundOptimal : Bool)
    (a : Assign) : OptResult :=
  { status := if foundOptimal then "optimal" else "feasible"
    departure_time := a.dep
    arrival_time := a.arr
    delay_minutes := a.delay
    total_delay := (ts.map fun t => a.delay t.id).sum
    conflicts_resolved := cs.length }

/-- The conflicts of type `"headway"` — the only ones that contribute
constraints to the CP model. -/
def headwayOnly (cs : List Conflict) : List Conflict :=
  cs.filter fun c => c.conflict_type == "headway"

/-- The assignment in which every train keeps its base departure and arrival,
has zero delay, and every enforcement literal is false. -/
def baseAssign (ts : List Train) : Assign :=
  { dep := fun i => (((ts.find? fun t => t.id == i).map baseDeparture).getD 0)
    arr := fun i => (((ts.find? fun t => t.id == i).map baseArrival).getD 0)
    delay := fun _ => 0
    firstSel := fun _ _ => false
    secondSel := fun _ _ => false }

/-! ### Disruption handling, engine state and metrics -/

/-- The engine's mutable state: the train dictionary (insertion order) and
the most recently computed conflict list. -/
structure EngineState where
  trains : List Train
  conflicts : List Conflict

/-- One iteration of the loop in `reoptimize_on_disruption`: if the affected
id is present, `delay` marks it `"delayed"`, `cancellation` deletes it,
`maintenance` marks it `"maintenance"`; any other disruption type changes
nothing. -/
def disruptStep (dtype : String) (ts : List Train) (tid : String) : List Train :=
  if ts.any fun t => t.id == tid then
    if dtype = "delay" then
      ts.map fun t => if t.id = tid then { t with status := "delayed" } else t
    else if dtype = "cancellation" then
      ts.filter fun t => !(t.id == tid)
    else if dtype = "maintenance" then
      ts.map fun t => if t.id = tid then { t with status := "maintenance" } else t
    else ts
  else ts

/-- The whole update loop of `reoptimize_on_disruption` over the affected
train ids. -/
def applyDisruption (dtype : String) (affected : List String)
    (ts : List Train) : List Train :=
  affected.foldl (disruptStep dtype) ts

/-- `reoptimize_on_disruption`: mutate the affected trains, then re-detect
conflicts (storing them) over the resulting train set; `optimize_schedule`
then runs on this state. -/
def reoptimizeOnDisruption (dtype : String) (affected : List String)
    (e : EngineState) : EngineState :=
  let ts := applyDisruption dtype affected e.trains
  { trains := ts, conflicts := detectConflicts ts }

/-- The record returned by `get_throughput_metrics`. -/
structure Metrics where
  total_trains : ℕ
  running_trains : ℕ
  delayed_trains : ℕ
  cancelled_trains : ℕ
  average_delay_minutes : ℚ
  punctuality_percentage : ℚ
  conflicts_detected : ℕ
  throughput_efficiency : ℚ

/-- `OptimizationEngine.get_throughput_metrics`; `now` is `datetime.now()`
in seconds since the epoch. -/
def getThroughputMetrics (e : EngineState) (now : ℚ) : Metrics :=
  let total := e.trains.length
  let running := (e.trains.filter fun t => t.status == "running").length
  let delayed := (e.trains.filter fun t => t.status == "delayed").length
  let total_delay :=
    (e.trains.map fun t =>
      if t.status = "delayed" then pyMax 0 ((now - t.scheduled_departure) / 60)
      else 0).sum
  { total_trains := total
    running_trains := running
    delayed_trains := delayed
    cancelled_trains := (e.trains.filter fun t => t.status == "cancelled").length
    average_delay_minutes :=
      if 0 < delayed then total_delay / (max 1 delayed : ℕ) else 0
    punctuality_percentage := (running : ℚ) / (max 1 total : ℕ) * 100
    conflicts_detected := e.conflicts.length
    throughput_efficiency := (running : ℚ) / (max 1 total : ℕ) * 100 }

/-! ### The train admission boundary -/

/-- The payload of `TrainCreate` (= `TrainBase`) in `app/models/schemas.py`. -/
structure TrainCreate where
  train_number : String
  train_type : String
  priority : ℤ
  origin : String
  destination : String
  scheduled_departure : ℚ
  scheduled_arrival : ℚ
  current_location : String
  speed : ℚ
  length : ℚ
  weight : ℚ
  status : String
deriving DecidableEq

/-- The pydantic field validation of `TrainBase`: `priority` is declared
`ge=1, le=10` and `speed`, `length`, `weight` are declared `gt=0`.  These
are the only value constraints on the schema; the two datetime fields have
none. -/
def trainCreateValid (t : TrainCreate) : Bool :=
  decide (1 ≤ t.priority) && decide (t.priority ≤ 10) &&
    decide (0 < t.speed) && decide (0 < t.length) && decide (0 < t.weight)

/-- The `OptTrain` that `create_train` in `app/api/trains.py` hands to
`optimization_engine.add_train`, copying every payload field unchanged. -/
def toOptTrain (tc : TrainCreate) (tid : String) : Train :=
  { id := tid
    train_number := tc.train_number
    train_type := tc.train_type
    priority := tc.priority
    origin := tc.origin
    destination := tc.destination
    scheduled_departure := tc.scheduled_departure
    scheduled_arrival := tc.scheduled_arrival
    current_location := tc.current_location
    speed := tc.speed
    length := tc.length
    weight := tc.weight
    status := tc.status }

/-! ### Concrete scenarios -/

/-- First train of the spec's Mumbai Central scenario: 120 km/h, 450 m. -/
def mumbaiA : Train :=
  { id := "T1", train_number := "12001", train_type := "express", priority := 8
    origin := "Mumbai Central", destination := "Delhi"
    scheduled_departure := 60000, scheduled_arrival := 120000
    current_location := "Mumbai Central", speed := 120, length := 450
    weight := 800, status := "running" }

/-- Second train of the spec's Mumbai Central scenario: 60 km/h, 200 m. -/
def mumbaiB : Train :=
  { id := "T2", train_number := "59001", train_type := "local", priority := 5
    origin := "Mumbai Central", destination := "Pune"
    scheduled_departure := 60000, scheduled_arrival := 200000
    current_location := "Mumbai Central", speed := 60, length := 200
    weight := 400, status := "running" }

/-- A train bound for Goa, used in the platform-conflict scenarios. -/
def platX : Train :=
  { id := "P1", train_number := "10001", train_type := "express", priority := 7
    origin := "O1", destination := "Goa"
    scheduled_departure := 60000, scheduled_arrival := 100000
    current_location := "L1", speed := 100, length := 500
    weight := 700, status := "running" }

/-- A second train bound for Goa, arriving 100 s after `platX`. -/
def platY : Train :=
  { id := "P2", train_number := "10002", train_type := "express", priority := 6
    origin := "O2", destination := "Goa"
    scheduled_departure := 90000, scheduled_arrival := 100100
    current_location := "L2", speed := 100, length := 500
    weight := 700, status := "running" }

/-- A third train bound for Goa, arriving exactly 300 s after `platX`. -/
def platZ : Train :=
  { id := "P3", train_number := "10003", train_type := "express", priority := 6
    origin := "O3", destination := "Goa"
    scheduled_departure := 95000, scheduled_arrival := 100300
    current_location := "L3", speed := 100, length := 500
    weight := 700, status := "running" }

/-- Fleet of 5 trains with priorities 8, 5, 6, 9, 10; train 1 of the fleet. -/
def fleet1 : Train :=
  { id := "A1", train_number := "20001", train_type := "express", priority := 8
    origin := "O1", destination := "D1"
    scheduled_departure := 60000, scheduled_arrival := 100000
    current_location := "L1", speed := 100, length := 500
    weight := 700, status := "running" }

/-- The priority-5 train of the fleet; shares location `"S"` with `fleet4`
and departs at the same instant. -/
def fleet2 : Train :=
  { id := "A2", train_number := "20002", train_type := "local", priority := 5
    origin := "O2", destination := "D2"
    scheduled_departure := 60000, scheduled_arrival := 101000
    current_location := "S", speed := 100, length := 500
    weight := 700, status := "running" }

/-- The priority-6 train of the fleet. -/
def fleet3 : Train :=
  { id := "A3", train_number := "20003", train_type := "local", priority := 6
    origin := "O3", destination := "D3"
    scheduled_departure := 60000, scheduled_arrival := 102000
    current_location := "L3", speed := 100, length := 500
    weight := 700, status := "running" }

/-- The priority-9 train of the fleet; shares location `"S"` with `fleet2`. -/
def fleet4 : Train :=
  { id := "A4", train_number := "20004", train_type := "express", priority := 9
    origin := "O4", destination := "D4"
    scheduled_departure := 60000, scheduled_arrival := 103000
    current_location := "S", speed := 100, length := 500
    weight := 700, status := "running" }

/-- The priority-10 train of the fleet. -/
def fleet5train : Train :=
  { id := "A5", train_number := "20005", train_type := "express", priority := 10
    origin := "O5", destination := "D5"
    scheduled_departure := 60000, scheduled_arrival := 104000
    current_location := "L5", speed := 100, length := 500
    weight := 700, status := "running" }

/-- The fleet of 5 trains with priorities [8, 5, 6, 9, 10]. -/
def fleet : List Train := [fleet1, fleet2, fleet3, fleet4, fleet5train]

/-- A `TrainCreate` payload whose `scheduled_arrival` precedes its
`scheduled_departure` but whose other fields satisfy every pydantic field
constraint. -/
def badTrain : TrainCreate :=
  { train_number := "66666", train_type := "express", priority := 5
    origin := "O", destination := "D"
    scheduled_departure := 1000, scheduled_arrival := 500
    current_location := "O", speed := 80, length := 300
    weight := 500, status := "scheduled" }

end Railway

/-! ## General lemmas -/

namespace Railway

theorem pyMax_eq_max (a b : ℚ) : pyMax a b = max a b := by
  unfold pyMax
  rcases le_total a b with h | h
  · rw [if_pos h, max_eq_right h]
  · rcases eq_or_lt_of_le h with rfl | hlt
    · simp
    · rw [if_neg (not_le.mpr hlt), max_eq_left h]

theorem pyAbs_eq_abs (a : ℚ) : pyAbs a = |a| := by
  unfold pyAbs
  rcases lt_or_le a 0 with h | h
  · rw [if_pos h, abs_of_neg h]
  · rw [if_neg (not_lt.mpr h), abs_of_nonneg h]

theorem checkHeadway_eq (t1 t2 : Train) :
    checkHeadwayConflict t1 t2
      = if headwayCond t1 t2 then some (headwayRecord t1 t2) else none := by
  unfold checkHeadwayConflict headwayCond headwayRecord
  by_cases h1 : t1.current_location = t2.current_location
  · by_cases h2 :
        pyAbs (t1.scheduled_departure - t2.scheduled_departure) < minHeadway t1 t2
    · rw [if_pos h1, if_pos h2, if_pos ⟨h1, h2⟩]
    · rw [if_pos h1, if_neg h2, if_neg (fun h => h2 h.2)]
  · rw [if_neg h1, if_neg (fun h => h1 h.1)]

theorem checkPlatform_eq (t1 t2 : Train) :
    checkPlatformConflict t1 t2
      = if platformCond t1 t2 then some (platformRecord t1 t2) else none := by
  unfold checkPlatformConflict platformCond platformRecord
  by_cases h : t1.destination = t2.destination ∧
      pyAbs (t1.scheduled_arrival - t2.scheduled_arrival) < 300
  · simp only [if_pos h]
  · simp only [if_neg h]

theorem minHeadway_comm (A B : Train) : minHeadway A B = minHeadway B A := by
  unfold minHeadway
  rw [pyMax_eq_max, pyMax_eq_max, pyMax_eq_max, pyMax_eq_max,
    max_comm (A.length / A.speed * 3.6) (B.length / B.speed * 3.6)]

theorem headwayCond_comm (A B : Train) : headwayCond A B ↔ headwayCond B A := by
  unfold headwayCond
  rw [pyAbs_eq_abs, pyAbs_eq_abs, abs_sub_comm, minHeadway_comm]
  exact and_congr_left fun _ => eq_comm

theorem platformCond_comm (A B : Train) : platformCond A B ↔ platformCond B A := by
  unfold platformCond
  rw [pyAbs_eq_abs, pyAbs_eq_abs, abs_sub_comm]
  exact and_congr_left fun _ => eq_comm

theorem isHeadwayFor_comm (x y : String) (c : Conflict) :
    isHeadwayFor x y c = isHeadwayFor y x c := by
  unfold isHeadwayFor
  rw [Bool.or_comm]

theorem isPlatformFor_comm (x y : String) (c : Conflict) :
    isPlatformFor x y c = isPlatformFor y x c := by
  unfold isPlatformFor
  rw [Bool.or_comm]

theorem sum_ite_eq_count {α : Type} [DecidableEq α] (l : List α) (b : α) :
    (l.map fun x => if x = b then (1 : ℕ) else 0).sum = l.count b := by
  induction l with
  | nil => simp
  | cons x xs ih =>
      by_cases h : x = b <;> simp [List.count_cons, ih, h, beq_iff_eq, Nat.add_comm]

end Railway

namespace Railway

theorem countP_pairChecks_headway (A B t1 t2 : Train) (hord : A.id < B.id)
    (h1A : t1.id = A.id → t1 = A) (h1B : t1.id = B.id → t1 = B)
    (h2A : t2.id = A.id → t2 = A) (h2B : t2.id = B.id → t2 = B) :
    (pairChecks t1 t2).countP (isHeadwayFor A.id B.id)
      = if t1 = A ∧ t2 = B ∧ headwayCond A B then 1 else 0 := by
  unfold pairChecks
  by_cases hlt : t1.id < t2.id
  · rw [if_pos hlt, List.countP_append, checkHeadway_eq, checkPlatform_eq]
    have hplat :
        ((if platformCond t1 t2 then some (platformRecord t1 t2) else none).toList).countP
            (isHeadwayFor A.id B.id) = 0 := by
      split_ifs <;> simp [platformRecord, isHeadwayFor, Option.toList]
    rw [hplat, Nat.add_zero]
    by_cases hcond : headwayCond t1 t2
    · rw [if_pos hcond]
      by_cases h12 : t1 = A ∧ t2 = B
      · obtain ⟨rfl, rfl⟩ := h12
        rw [if_pos ⟨rfl, rfl, hcond⟩]
        simp [isHeadwayFor, headwayRecord, Option.toList]
      · rw [if_neg (by tauto)]
        simp only [Option.toList, List.countP_cons, List.countP_nil, Nat.zero_add]
        have hfalse : isHeadwayFor A.id B.id (headwayRecord t1 t2) = false := by
          simp only [isHeadwayFor, headwayRecord, Bool.and_eq_false_iff,
            Bool.or_eq_false_iff, Bool.and_eq_false_iff, beq_eq_false_iff_ne, ne_eq]
          right
          constructor
          · by_cases hA1 : t1.id = A.id
            · right
              intro hB2
              exact h12 ⟨h1A hA1, h2B hB2⟩
            · left; exact hA1
          · by_cases hB1 : t1.id = B.id
            · right
              intro hA2
              rw [h1B hB1, h2A hA2] at hlt
              exact absurd hord (by exact not_lt.mpr (le_of_lt hlt))
            · left; exact hB1
        rw [hfalse]
        rfl
    · rw [if_neg hcond]
      simp only [Option.toList, List.countP_nil]
      rw [if_neg]
      rintro ⟨rfl, rfl, hc⟩
      exact hcond hc
  · rw [if_neg hlt, List.countP_nil, if_neg]
    rintro ⟨rfl, rfl, -⟩
    exact hlt hord

theorem countP_pairChecks_platform (A B t1 t2 : Train) (hord : A.id < B.id)
    (h1A : t1.id = A.id → t1 = A) (h1B : t1.id = B.id → t1 = B)
    (h2A : t2.id = A.id → t2 = A) (h2B : t2.id = B.id → t2 = B) :
    (pairChecks t1 t2).countP (isPlatformFor A.id B.id)
      = if t1 = A ∧ t2 = B ∧ platformCond A B then 1 else 0 := by
  unfold pairChecks
  by_cases hlt : t1.id < t2.id
  · rw [if_pos hlt, List.countP_append, checkHeadway_eq, checkPlatform_eq]
    have hhead :
        ((if headwayCond t1 t2 then some (headwayRecord t1 t2) else none).toList).countP
            (isPlatformFor A.id B.id) = 0 := by
      split_ifs <;> simp [headwayRecord, isPlatformFor, Option.toList]
    rw [hhead, Nat.zero_add]
    by_cases hcond : platformCond t1 t2
    · rw [if_pos hcond]
      by_cases h12 : t1 = A ∧ t2 = B
      · obtain ⟨rfl, rfl⟩ := h12
        rw [if_pos ⟨rfl, rfl, hcond⟩]
        simp [isPlatformFor, platformRecord, Option.toList]
      · rw [if_neg (by tauto)]
        simp only [Option.toList, List.countP_cons, List.countP_nil, Nat.zero_add]
        have hfalse : isPlatformFor A.id B.id (platformRecord t1 t2) = false := by
          simp only [isPlatformFor, platformRecord, Bool.and_eq_false_iff,
            Bool.or_eq_false_iff, Bool.and_eq_false_iff, beq_eq_false_iff_ne, ne_eq]
          right
          constructor
          · by_cases hA1 : t1.id = A.id
            · right
              intro hB2
              exact h12 ⟨h1A hA1, h2B hB2⟩
            · left; exact hA1
          · by_cases hB1 : t1.id = B.id
            · right
              intro hA2
              rw [h1B hB1, h2A hA2] at hlt
              exact absurd hord (by exact not_lt.mpr (le_of_lt hlt))
            · left; exact hB1
        rw [hfalse]
        rfl
    · rw [if_neg hcond]
      simp only [Option.toList, List.countP_nil]
      rw [if_neg]
      rintro ⟨rfl, rfl, hc⟩
      exact hcond hc
  · rw [if_neg hlt, List.countP_nil, if_neg]
    rintro ⟨rfl, rfl, -⟩
    exact hlt hord

end Railway

namespace Railway

theorem detect_countP_headway (ts : List Train) (A B : Train)
    (hnd : (ts.map Train.id).Nodup) (hA : A ∈ ts) (hB : B ∈ ts)
    (hord : A.id < B.id) :
    (detectConflicts ts).countP (isHeadwayFor A.id B.id)
      = if headwayCond A B then 1 else 0 := by
  have hinj := List.inj_on_of_nodup_map hnd
  have hndts : ts.Nodup := List.Nodup.of_map Train.id hnd
  unfold detectConflicts
  rw [List.countP_flatMap]
  have hrow : ∀ t1 ∈ ts,
      ((List.countP (isHeadwayFor A.id B.id)) ∘ fun t1 =>
          ts.flatMap fun t2 => pairChecks t1 t2) t1
        = if t1 = A ∧ headwayCond A B then 1 else 0 := by
    intro t1 ht1
    simp only [Function.comp]
    rw [List.countP_flatMap]
    have hcell : ∀ t2 ∈ ts,
        ((List.countP (isHeadwayFor A.id B.id)) ∘ fun t2 => pairChecks t1 t2) t2
          = if t1 = A ∧ t2 = B ∧ headwayCond A B then 1 else 0 := by
      intro t2 ht2
      exact countP_pairChecks_headway A B t1 t2 hord
        (fun h => hinj ht1 hA h) (fun h => hinj ht1 hB h)
        (fun h => hinj ht2 hA h) (fun h => hinj ht2 hB h)
    rw [List.map_congr_left hcell]
    by_cases hA1 : t1 = A ∧ headwayCond A B
    · rw [if_pos hA1]
      have heach : ∀ t2 ∈ ts,
          (if t1 = A ∧ t2 = B ∧ headwayCond A B then 1 else 0)
            = if t2 = B then (1 : ℕ) else 0 := by
        intro t2 _
        by_cases h2 : t2 = B
        · rw [if_pos h2, if_pos ⟨hA1.1, h2, hA1.2⟩]
        · rw [if_neg h2, if_neg (by tauto)]
      rw [List.map_congr_left heach, sum_ite_eq_count,
        List.count_eq_one_of_mem hndts hB]
    · rw [if_neg hA1]
      have heach : ∀ t2 ∈ ts,
          (if t1 = A ∧ t2 = B ∧ headwayCond A B then 1 else 0) = (0 : ℕ) := by
        intro t2 _
        rw [if_neg (by tauto)]
      rw [List.map_congr_left heach]
      simp
  rw [List.map_congr_left hrow]
  by_cases hcond : headwayCond A B
  · rw [if_pos hcond]
    have heach : ∀ t1 ∈ ts,
        (if t1 = A ∧ headwayCond A B then 1 else 0) = if t1 = A then (1 : ℕ) else 0 := by
      intro t1 _
      by_cases h1 : t1 = A
      · rw [if_pos h1, if_pos ⟨h1, hcond⟩]
      · rw [if_neg h1, if_neg (by tauto)]
    rw [List.map_congr_left heach, sum_ite_eq_count,
      List.count_eq_one_of_mem hndts hA]
  · rw [if_neg hcond]
    have heach : ∀ t1 ∈ ts,
        (if t1 = A ∧ headwayCond A B then 1 else 0) = (0 : ℕ) := by
      intro t1 _
      rw [if_neg (by tauto)]
    rw [List.map_congr_left heach]
    simp

theorem detect_countP_platform (ts : List Train) (A B : Train)
    (hnd : (ts.map Train.id).Nodup) (hA : A ∈ ts) (hB : B ∈ ts)
    (hord : A.id < B.id) :
    (detectConflicts ts).countP (isPlatformFor A.id B.id)
      = if platformCond A B then 1 else 0 := by
  have hinj := List.inj_on_of_nodup_map hnd
  have hndts : ts.Nodup := List.Nodup.of_map Train.id hnd
  unfold detectConflicts
  rw [List.countP_flatMap]
  have hrow : ∀ t1 ∈ ts,
      ((List.countP (isPlatformFor A.id B.id)) ∘ fun t1 =>
          ts.flatMap fun t2 => pairChecks t1 t2) t1
        = if t1 = A ∧ platformCond A B then 1 else 0 := by
    intro t1 ht1
    simp only [Function.comp]
    rw [List.countP_flatMap]
    have hcell : ∀ t2 ∈ ts,
        ((List.countP (isPlatformFor A.id B.id)) ∘ fun t2 => pairChecks t1 t2) t2
          = if t1 = A ∧ t2 = B ∧ platformCond A B then 1 else 0 := by
      intro t2 ht2
      exact countP_pairChecks_platform A B t1 t2 hord
        (fun h => hinj ht1 hA h) (fun h => hinj ht1 hB h)
        (fun h => hinj ht2 hA h) (fun h => hinj ht2 hB h)
    rw [List.map_congr_left hcell]
    by_cases hA1 : t1 = A ∧ platformCond A B
    · rw [if_pos hA1]
      have heach : ∀ t2 ∈ ts,
          (if t1 = A ∧ t2 = B ∧ platformCond A B then 1 else 0)
            = if t2 = B then (1 : ℕ) else 0 := by
        intro t2 _
        by_cases h2 : t2 = B
        · rw [if_pos h2, if_pos ⟨hA1.1, h2, hA1.2⟩]
        · rw [if_neg h2, if_neg (by tauto)]
      rw [List.map_congr_left heach, sum_ite_eq_count,
        List.count_eq_one_of_mem hndts hB]
    · rw [if_neg hA1]
      have heach : ∀ t2 ∈ ts,
          (if t1 = A ∧ t2 = B ∧ platformCond A B then 1 else 0) = (0 : ℕ) := by
        intro t2 _
        rw [if_neg (by tauto)]
      rw [List.map_congr_left heach]
      simp
  rw [List.map_congr_left hrow]
  by_cases hcond : platformCond A B
  · rw [if_pos hcond]
    have heach : ∀ t1 ∈ ts,
        (if t1 = A ∧ platformCond A B then 1 else 0) = if t1 = A then (1 : ℕ) else 0 := by
      intro t1 _
      by_cases h1 : t1 = A
      · rw [if_pos h1, if_pos ⟨h1, hcond⟩]
      · rw [if_neg h1, if_neg (by tauto)]
    rw [List.map_congr_left heach, sum_ite_eq_count,
      List.count_eq_one_of_mem hndts hA]
  · rw [if_neg hcond]
    have heach : ∀ t1 ∈ ts,
        (if t1 = A ∧ platformCond A B then 1 else 0) = (0 : ℕ) := by
      intro t1 _
      rw [if_neg (by tauto)]
    rw [List.map_congr_left heach]
    simp

end Railway

namespace Railway

theorem find?_id (ts : List Train) (t : Train)
    (hnd : (ts.map Train.id).Nodup) (ht : t ∈ ts) :
    (ts.find? fun u => u.id == t.id) = some t := by
  induction ts with
  | nil => cases ht
  | cons u us ih =>
      rw [List.map_cons, List.nodup_cons] at hnd
      rcases List.mem_cons.mp ht with rfl | hmem
      · rw [List.find?_cons_of_pos _ (by simp)]
      · rw [List.find?_cons_of_neg, ih hnd.2 hmem]
        simp only [beq_iff_eq]
        intro he
        exact hnd.1 (he ▸ List.mem_map_of_mem Train.id hmem)

theorem baseAssign_dep (ts : List Train) (t : Train)
    (hnd : (ts.map Train.id).Nodup) (ht : t ∈ ts) :
    (baseAssign ts).dep t.id = baseDeparture t := by
  simp [baseAssign, find?_id ts t hnd ht]

theorem baseAssign_arr (ts : List Train) (t : Train)
    (hnd : (ts.map Train.id).Nodup) (ht : t ∈ ts) :
    (baseAssign ts).arr t.id = baseArrival t := by
  simp [baseAssign, find?_id ts t hnd ht]

theorem baseAssign_feasible (ts : List Train) (cs : List Conflict)
    (hnd : (ts.map Train.id).Nodup) :
    isFeasible ts cs (baseAssign ts) := by
  constructor
  · intro t ht
    unfold varBounds
    have hdel : (baseAssign ts).delay t.id = 0 := rfl
    rw [baseAssign_dep ts t hnd ht, baseAssign_arr ts t hnd ht, hdel]
    omega
  · intro c _ _
    constructor <;> intro hfalse <;> simp [baseAssign] at hfalse

theorem baseAssign_objective (ts : List Train) :
    objective ts (baseAssign ts) = 0 := by
  unfold objective
  have : ∀ t ∈ ts,
      (((baseAssign ts).delay t.id : ℚ) * (1 / (t.priority : ℚ))) = 0 := by
    intro t _
    simp [baseAssign]
  rw [List.map_congr_left this]
  simp

theorem objective_nonneg (ts : List Train) (a : Assign)
    (hd : ∀ t ∈ ts, 0 ≤ a.delay t.id) (hp : ∀ t ∈ ts, 0 ≤ t.priority) :
    0 ≤ objective ts a := by
  apply List.sum_nonneg
  intro x hx
  rw [List.mem_map] at hx
  obtain ⟨t, ht, rfl⟩ := hx
  apply mul_nonneg
  · exact_mod_cast hd t ht
  · exact one_div_nonneg.mpr (by exact_mod_cast hp t ht)

theorem feasible_delay_nonneg (ts : List Train) (cs : List Conflict)
    (a : Assign) (hf : isFeasible ts cs a) :
    ∀ t ∈ ts, 0 ≤ a.delay t.id := by
  intro t ht
  exact (hf.1 t ht).2.2.2.2.1

theorem baseAssign_optimal (ts : List Train) (cs : List Conflict)
    (hnd : (ts.map Train.id).Nodup) (hp : ∀ t ∈ ts, 0 ≤ t.priority) :
    isOptimal ts cs (baseAssign ts) := by
  refine ⟨baseAssign_feasible ts cs hnd, fun b hb => ?_⟩
  rw [baseAssign_objective]
  exact objective_nonneg ts b (feasible_delay_nonneg ts cs b hb) hp

theorem isFeasible_headwayOnly (ts : List Train) (cs : List Conflict)
    (a : Assign) :
    isFeasible ts cs a ↔ isFeasible ts (headwayOnly cs) a := by
  unfold isFeasible headwayOnly
  apply and_congr_right
  intro _
  constructor
  · intro h c hc htype
    rw [List.mem_filter] at hc
    exact h c hc.1 htype
  · intro h c hc htype
    exact h c (List.mem_filter.mpr ⟨hc, by simp [htype]⟩) htype

theorem isOptimal_headwayOnly (ts : List Train) (cs : List Conflict)
    (a : Assign) :
    isOptimal ts cs a ↔ isOptimal ts (headwayOnly cs) a := by
  unfold isOptimal
  rw [← isFeasible_headwayOnly]
  apply and_congr_right
  intro _
  constructor
  · intro h b hb
    exact h b ((isFeasible_headwayOnly ts cs b).mpr hb)
  · intro h b hb
    exact h b ((isFeasible_headwayOnly ts cs b).mp hb)

end Railway

namespace Railway

theorem disruptStep_delay (ts : List Train) (a : String) :
    disruptStep "delay" ts a
      = ts.map fun t => if t.id = a then { t with status := "delayed" } else t := by
  unfold disruptStep
  by_cases h : (ts.any fun t => t.id == a) = true
  · simp [h]
  · rw [if_neg h]
    have heach : ∀ t ∈ ts,
        id t = if t.id = a then { t with status := "delayed" } else t := by
      intro t ht
      rw [if_neg fun he => h (List.any_eq_true.mpr ⟨t, ht, by simp [he]⟩)]
      rfl
    calc ts = ts.map id := (List.map_id ts).symm
    _ = _ := List.map_congr_left heach

theorem disruptStep_maintenance (ts : List Train) (a : String) :
    disruptStep "maintenance" ts a
      = ts.map fun t => if t.id = a then { t with status := "maintenance" } else t := by
  unfold disruptStep
  by_cases h : (ts.any fun t => t.id == a) = true
  · simp [h]
  · rw [if_neg h]
    have heach : ∀ t ∈ ts,
        id t = if t.id = a then { t with status := "maintenance" } else t := by
      intro t ht
      rw [if_neg fun he => h (List.any_eq_true.mpr ⟨t, ht, by simp [he]⟩)]
      rfl
    calc ts = ts.map id := (List.map_id ts).symm
    _ = _ := List.map_congr_left heach

theorem disruptStep_cancel (ts : List Train) (a : String) :
    disruptStep "cancellation" ts a = ts.filter fun t => !(t.id == a) := by
  unfold disruptStep
  by_cases h : (ts.any fun t => t.id == a) = true
  · simp [h]
  · rw [if_neg h]
    symm
    rw [List.filter_eq_self]
    intro t ht
    simp only [Bool.not_eq_eq_eq_not, Bool.not_true, beq_eq_false_iff_ne, ne_eq]
    intro he
    exact h (List.any_eq_true.mpr ⟨t, ht, by simp [he]⟩)

theorem disruptStep_unknown (dtype : String) (ts : List Train) (a : String)
    (h1 : dtype ≠ "delay") (h2 : dtype ≠ "cancellation")
    (h3 : dtype ≠ "maintenance") :
    disruptStep dtype ts a = ts := by
  unfold disruptStep
  by_cases hg : (ts.any fun t => t.id == a) = true
  · rw [if_pos hg, if_neg h1, if_neg h2, if_neg h3]
  · rw [if_neg hg]

theorem applyDisruption_delay (affected : List String) (ts : List Train) :
    applyDisruption "delay" affected ts
      = ts.map fun t =>
          if t.id ∈ affected then { t with status := "delayed" } else t := by
  induction affected generalizing ts with
  | nil =>
      have : ∀ t ∈ ts, (if t.id ∈ ([] : List String) then
          { t with status := "delayed" } else t) = t := by
        intro t _
        simp
      rw [List.map_congr_left this]
      simp [applyDisruption]
  | cons a as ih =>
      show applyDisruption "delay" as (disruptStep "delay" ts a) = _
      rw [disruptStep_delay, ih, List.map_map]
      apply List.map_congr_left
      intro t _
      simp only [Function.comp]
      by_cases h1 : t.id = a
      · by_cases h2 : t.id ∈ as <;>
          simp [h1, h2, List.mem_cons]
      · by_cases h2 : t.id ∈ as <;>
          simp [h1, h2, List.mem_cons]

theorem applyDisruption_maintenance (affected : List String) (ts : List Train) :
    applyDisruption "maintenance" affected ts
      = ts.map fun t =>
          if t.id ∈ affected then { t with status := "maintenance" } else t := by
  induction affected generalizing ts with
  | nil =>
      have : ∀ t ∈ ts, (if t.id ∈ ([] : List String) then
          { t with status := "maintenance" } else t) = t := by
        intro t _
        simp
      rw [List.map_congr_left this]
      simp [applyDisruption]
  | cons a as ih =>
      show applyDisruption "maintenance" as (disruptStep "maintenance" ts a) = _
      rw [disruptStep_maintenance, ih, List.map_map]
      apply List.map_congr_left
      intro t _
      simp only [Function.comp]
      by_cases h1 : t.id = a
      · by_cases h2 : t.id ∈ as <;>
          simp [h1, h2, List.mem_cons]
      · by_cases h2 : t.id ∈ as <;>
          simp [h1, h2, List.mem_cons]

theorem applyDisruption_cancel (affected : List String) (ts : List Train) :
    applyDisruption "cancellation" affected ts
      = ts.filter fun t => decide (t.id ∉ affected) := by
  induction affected generalizing ts with
  | nil =>
      have hl : applyDisruption "cancellation" [] ts = ts := rfl
      rw [hl]
      symm
      rw [List.filter_eq_self]
      intro t _
      simp
  | cons a as ih =>
      show applyDisruption "cancellation" as (disruptStep "cancellation" ts a) = _
      rw [disruptStep_cancel, ih, List.filter_filter]
      apply List.filter_congr
      intro t _
      by_cases h1 : t.id = a
      · by_cases h2 : t.id ∈ as <;> simp [h1, h2]
      · by_cases h2 : t.id ∈ as <;> simp [h1, h2]

theorem applyDisruption_unknown (dtype : String) (affected : List String)
    (ts : List Train) (h1 : dtype ≠ "delay") (h2 : dtype ≠ "cancellation")
    (h3 : dtype ≠ "maintenance") :
    applyDisruption dtype affected ts = ts := by
  induction affected generalizing ts with
  | nil => rfl
  | cons a as ih =>
      show applyDisruption dtype as (disruptStep dtype ts a) = _
      rw [disruptStep_unknown dtype ts a h1 h2 h3, ih]

theorem detect_mem_ids (ts : List Train) (c : Conflict)
    (hc : c ∈ detectConflicts ts) :
    c.train1_id ∈ ts.map Train.id ∧ c.train2_id ∈ ts.map Train.id := by
  unfold detectConflicts at hc
  rw [List.mem_flatMap] at hc
  obtain ⟨t1, ht1, hc⟩ := hc
  rw [List.mem_flatMap] at hc
  obtain ⟨t2, ht2, hc⟩ := hc
  unfold pairChecks at hc
  have hids : c.train1_id = t1.id ∧ c.train2_id = t2.id := by
    by_cases hlt : t1.id < t2.id
    · rw [if_pos hlt, List.mem_append, checkHeadway_eq, checkPlatform_eq] at hc
      rcases hc with hc | hc
      · split_ifs at hc with h
        · simp only [Option.toList, List.mem_singleton] at hc
          subst hc
          exact ⟨rfl, rfl⟩
        · simp [Option.toList] at hc
      · split_ifs at hc with h
        · simp only [Option.toList, List.mem_singleton] at hc
          subst hc
          exact ⟨rfl, rfl⟩
        · simp [Option.toList] at hc
    · rw [if_neg hlt] at hc
      cases hc
  exact ⟨hids.1 ▸ List.mem_map_of_mem Train.id ht1,
    hids.2 ▸ List.mem_map_of_mem Train.id ht2⟩

end Railway

namespace Railway

theorem pairChecks_self (t : Train) : pairChecks t t = [] := by
  unfold pairChecks
  rw [if_neg (lt_irrefl _)]

theorem pairChecks_ge (t1 t2 : Train) (h : ¬t1.id < t2.id) :
    pairChecks t1 t2 = [] := by
  unfold pairChecks
  rw [if_neg h]

theorem pairChecks_lt (t1 t2 : Train) (h : t1.id < t2.id) :
    pairChecks t1 t2
      = (if headwayCond t1 t2 then some (headwayRecord t1 t2) else none).toList
        ++ (if platformCond t1 t2 then some (platformRecord t1 t2) else none).toList := by
  unfold pairChecks
  rw [if_pos h, checkHeadway_eq, checkPlatform_eq]

theorem pyInt_intCast (n : ℤ) : pyInt (n : ℚ) = n := by
  unfold pyInt
  split_ifs with h
  · exact Int.floor_intCast n
  · exact Int.ceil_intCast n

theorem mumbai_ord : mumbaiA.id < mumbaiB.id := by
  show ("T1" : String) < "T2"
  rw [String.lt_iff_toList_lt]
  decide

theorem mumbai_minHeadway : minHeadway mumbaiA mumbaiB = 120 := by
  norm_num [minHeadway, pyMax, mumbaiA, mumbaiB]

theorem mumbai_headwayCond : headwayCond mumbaiA mumbaiB := by
  constructor
  · rfl
  · rw [mumbai_minHeadway]
    norm_num [pyAbs, mumbaiA, mumbaiB]

theorem mumbai_not_platformCond : ¬platformCond mumbaiA mumbaiB := by
  intro hp
  have h := hp.1
  simp [mumbaiA, mumbaiB] at h

theorem mumbai_detect :
    detectConflicts [mumbaiA, mumbaiB] = [headwayRecord mumbaiA mumbaiB] := by
  unfold detectConflicts
  simp only [List.flatMap_cons, List.flatMap_nil, List.append_nil]
  rw [pairChecks_self, pairChecks_self,
    pairChecks_ge mumbaiB mumbaiA (not_lt.mpr (le_of_lt mumbai_ord)),
    pairChecks_lt mumbaiA mumbaiB mumbai_ord,
    if_pos mumbai_headwayCond, if_neg mumbai_not_platformCond]
  simp [Option.toList]

theorem mumbai_severity : (headwayRecord mumbaiA mumbaiB).severity = 1 := by
  have h := mumbai_minHeadway
  simp only [headwayRecord]
  rw [h]
  norm_num [pyAbs, mumbaiA, mumbaiB]

theorem mumbai_baseDeparture_A : baseDeparture mumbaiA = 1000 := by
  unfold baseDeparture
  have h : mumbaiA.scheduled_departure / 60 = ((1000 : ℤ) : ℚ) := by
    norm_num [mumbaiA]
  rw [h, pyInt_intCast]

theorem mumbai_baseDeparture_B : baseDeparture mumbaiB = 1000 := by
  unfold baseDeparture
  have h : mumbaiB.scheduled_departure / 60 = ((1000 : ℤ) : ℚ) := by
    norm_num [mumbaiB]
  rw [h, pyInt_intCast]

theorem mumbai_nodup : ([mumbaiA, mumbaiB].map Train.id).Nodup := by
  show (["T1", "T2"] : List String).Nodup
  decide

end Railway

namespace Railway

theorem plat_ord : platX.id < platY.id := by
  show ("P1" : String) < "P2"
  rw [String.lt_iff_toList_lt]
  decide

theorem plat_not_headwayCond : ¬headwayCond platX platY := by
  intro hp
  have h := hp.1
  simp [platX, platY] at h

theorem plat_platformCond : platformCond platX platY := by
  constructor
  · rfl
  · norm_num [pyAbs, platX, platY]

theorem plat_detect :
    detectConflicts [platX, platY] = [platformRecord platX platY] := by
  unfold detectConflicts
  simp only [List.flatMap_cons, List.flatMap_nil, List.append_nil]
  rw [pairChecks_self, pairChecks_self,
    pairChecks_ge platY platX (not_lt.mpr (le_of_lt plat_ord)),
    pairChecks_lt platX platY plat_ord,
    if_neg plat_not_headwayCond, if_pos plat_platformCond]
  simp [Option.toList]

theorem plat_boundary_gap :
    pyAbs (platX.scheduled_arrival - platZ.scheduled_arrival) = 300 := by
  norm_num [pyAbs, platX, platZ]

theorem plat_boundary_none : checkPlatformConflict platX platZ = none := by
  rw [checkPlatform_eq, if_neg]
  intro hp
  have h := hp.2
  rw [plat_boundary_gap] at h
  exact absurd h (by norm_num)

theorem fleet_nodup : (fleet.map Train.id).Nodup := by
  show (["A1", "A2", "A3", "A4", "A5"] : List String).Nodup
  decide

theorem fleet_ord24 : fleet2.id < fleet4.id := by
  show ("A2" : String) < "A4"
  rw [String.lt_iff_toList_lt]
  decide

theorem fleet_minHeadway24 : minHeadway fleet2 fleet4 = 120 := by
  norm_num [minHeadway, pyMax, fleet2, fleet4]

theorem fleet_headwayCond24 : headwayCond fleet2 fleet4 := by
  constructor
  · rfl
  · rw [fleet_minHeadway24]
    norm_num [pyAbs, fleet2, fleet4]

theorem fleet_priorities : ∀ t ∈ fleet, 0 ≤ t.priority := by
  intro t ht
  simp only [fleet, List.mem_cons, List.not_mem_nil, or_false] at ht
  rcases ht with rfl | rfl | rfl | rfl | rfl <;> norm_num
    [fleet1, fleet2, fleet3, fleet4, fleet5train]

theorem fleet_baseDeparture2 : baseDeparture fleet2 = 1000 := by
  unfold baseDeparture
  have h : fleet2.scheduled_departure / 60 = ((1000 : ℤ) : ℚ) := by
    norm_num [fleet2]
  rw [h, pyInt_intCast]

theorem fleet_baseDeparture4 : baseDeparture fleet4 = 1000 := by
  unfold baseDeparture
  have h : fleet4.scheduled_departure / 60 = ((1000 : ℤ) : ℚ) := by
    norm_num [fleet4]
  rw [h, pyInt_intCast]

theorem fleet_dep2 : (baseAssign fleet).dep "A2" = 1000 := by
  have h := baseAssign_dep fleet fleet2 fleet_nodup (by simp [fleet])
  rw [show ("A2" : String) = fleet2.id from rfl, h, fleet_baseDeparture2]

theorem fleet_dep4 : (baseAssign fleet).dep "A4" = 1000 := by
  have h := baseAssign_dep fleet fleet4 fleet_nodup (by simp [fleet])
  rw [show ("A4" : String) = fleet4.id from rfl, h, fleet_baseDeparture4]

end Railway

namespace Railway

/-- C2: For every unordered pair of distinct trains, `detect_conflicts`
emits exactly one headway conflict if and only if both trains share the same
`current_location` and the absolute difference of their scheduled departures
is strictly below `min_headway = max(length1/speed1*3.6, length2/speed2*3.6,
120)`; the emitted conflict (see `headwayRecord`) carries severity
`1 - time_diff / min_headway`. -/
theorem detect_headway_conflict_spec (ts : List Train) (A B : Train)
    (hnd : (ts.map Train.id).Nodup) (hA : A ∈ ts) (hB : B ∈ ts)
    (hne : A.id ≠ B.id) :
    ((detectConflicts ts).countP (isHeadwayFor A.id B.id)
        = if headwayCond A B then 1 else 0) ∧
    minHeadway A B
        = max (max (A.length / A.speed * 3.6) (B.length / B.speed * 3.6)) 120 ∧
    (headwayCond A B ↔
        A.current_location = B.current_location ∧
          |A.scheduled_departure - B.scheduled_departure| < minHeadway A B) ∧
    ∀ t1 t2 : Train,
      checkHeadwayConflict t1 t2
        = if headwayCond t1 t2 then some (headwayRecord t1 t2) else none := by
  refine ⟨?_, ?_, ?_, checkHeadway_eq⟩
  · rcases lt_or_gt_of_ne hne with hord | hord
    · exact detect_countP_headway ts A B hnd hA hB hord
    · have hfun : isHeadwayFor A.id B.id = isHeadwayFor B.id A.id :=
        funext (isHeadwayFor_comm A.id B.id)
      rw [hfun, detect_countP_headway ts B A hnd hB hA hord]
      exact if_congr (headwayCond_comm B A) rfl rfl
  · unfold minHeadway
    rw [pyMax_eq_max, pyMax_eq_max]
  · unfold headwayCond
    rw [pyAbs_eq_abs]

/-- Witness for C2: the Mumbai Central scenario — two trains departing the
same location at the same instant, speeds 120 and 60 km/h, lengths 450 m and
200 m, give `min_headway = 120` and one headway conflict of severity 1. -/
theorem detect_headway_conflict_spec_witness :
    (detectConflicts [mumbaiA, mumbaiB]).countP
        (isHeadwayFor mumbaiA.id mumbaiB.id) = 1 ∧
    minHeadway mumbaiA mumbaiB = 120 ∧
    (headwayRecord mumbaiA mumbaiB).severity = 1 ∧
    checkHeadwayConflict mumbaiA mumbaiB = some (headwayRecord mumbaiA mumbaiB) := by
  have h := detect_headway_conflict_spec [mumbaiA, mumbaiB] mumbaiA mumbaiB
    mumbai_nodup (by simp) (by simp) (by decide)
  refine ⟨?_, mumbai_minHeadway, mumbai_severity, ?_⟩
  · rw [h.1, if_pos mumbai_headwayCond]
  · rw [h.2.2.2 mumbaiA mumbaiB, if_pos mumbai_headwayCond]

/-- C3: For every unordered pair of distinct trains, `detect_conflicts`
emits exactly one platform conflict, of fixed severity 0.8 and with the four
resolution options (delay either train 10 minutes, change platform for
either train), if and only if the trains share a destination and their
arrival gap is strictly below 300 s; at a gap of exactly 300 s nothing is
emitted. -/
theorem detect_platform_conflict_spec (ts : List Train) (A B : Train)
    (hnd : (ts.map Train.id).Nodup) (hA : A ∈ ts) (hB : B ∈ ts)
    (hne : A.id ≠ B.id) :
    ((detectConflicts ts).countP (isPlatformFor A.id B.id)
        = if platformCond A B then 1 else 0) ∧
    (platformCond A B ↔
        A.destination = B.destination ∧
          |A.scheduled_arrival - B.scheduled_arrival| < 300) ∧
    (∀ t1 t2 : Train,
        checkPlatformConflict t1 t2
          = if platformCond t1 t2 then some (platformRecord t1 t2) else none) ∧
    ((platformRecord A B).severity = 0.8 ∧
      (platformRecord A B).resolution_options =
        [⟨"delay_train", A.id, some 10⟩, ⟨"delay_train", B.id, some 10⟩,
         ⟨"change_platform", A.id, none⟩, ⟨"change_platform", B.id, none⟩]) ∧
    ∀ t1 t2 : Train,
      |t1.scheduled_arrival - t2.scheduled_arrival| = 300 →
        checkPlatformConflict t1 t2 = none := by
  refine ⟨?_, ?_, checkPlatform_eq, ⟨rfl, rfl⟩, ?_⟩
  · rcases lt_or_gt_of_ne hne with hord | hord
    · exact detect_countP_platform ts A B hnd hA hB hord
    · have hfun : isPlatformFor A.id B.id = isPlatformFor B.id A.id :=
        funext (isPlatformFor_comm A.id B.id)
      rw [hfun, detect_countP_platform ts B A hnd hB hA hord]
      exact if_congr (platformCond_comm B A) rfl rfl
  · unfold platformCond
    rw [pyAbs_eq_abs]
  · intro t1 t2 hgap
    rw [checkPlatform_eq, if_neg]
    intro hp
    have h2 := hp.2
    rw [pyAbs_eq_abs, hgap] at h2
    exact absurd h2 (by norm_num)

/-- Witness for C3: `platX` and `platY` share destination Goa with a 100 s
arrival gap, giving exactly one platform conflict of severity 0.8; `platZ`
arrives exactly 300 s after `platX` and triggers none. -/
theorem detect_platform_conflict_spec_witness :
    (detectConflicts [platX, platY]).countP
        (isPlatformFor platX.id platY.id) = 1 ∧
    (platformRecord platX platY).severity = 0.8 ∧
    checkPlatformConflict platX platZ = none ∧
    pyAbs (platX.scheduled_arrival - platZ.scheduled_arrival) = 300 := by
  have h := detect_platform_conflict_spec [platX, platY] platX platY
    (by show (["P1", "P2"] : List String).Nodup; decide)
    (by simp) (by simp) (by decide)
  refine ⟨?_, rfl, plat_boundary_none, plat_boundary_gap⟩
  rw [h.1, if_pos plat_platformCond]

end Railway

namespace Railway

/-- C4: Whenever `optimize_schedule` returns status `"optimal"` or
`"feasible"`, every train's returned entry has `delay_minutes` in `[0, 60]`
and a departure equal to the train's base scheduled departure plus
`delay_minutes` — these are feasibility constraints of the CP model, so any
assignment the solver certifies satisfies them. -/
theorem optimize_schedule_delay_bounds (ts : List Train) (cs : List Conflict)
    (foundOptimal : Bool) (a : Assign) (hf : isFeasible ts cs a) :
    ((mkOptResult ts cs foundOptimal a).status = "optimal" ∨
        (mkOptResult ts cs foundOptimal a).status = "feasible") ∧
    ∀ t ∈ ts,
      0 ≤ (mkOptResult ts cs foundOptimal a).delay_minutes t.id ∧
      (mkOptResult ts cs foundOptimal a).delay_minutes t.id ≤ 60 ∧
      (mkOptResult ts cs foundOptimal a).departure_time t.id
          = baseDeparture t + (mkOptResult ts cs foundOptimal a).delay_minutes t.id := by
  constructor
  · cases foundOptimal
    · right; rfl
    · left; rfl
  · intro t ht
    obtain ⟨h1, h2, h3, h4, h5, h6, h7⟩ := hf.1 t ht
    have hdel : (mkOptResult ts cs foundOptimal a).delay_minutes t.id
        = a.delay t.id := rfl
    have hdep : (mkOptResult ts cs foundOptimal a).departure_time t.id
        = a.dep t.id := rfl
    rw [hdel, hdep]
    exact ⟨h5, h6, by omega⟩

/-- Witness for C4: a one-train engine with the base assignment. -/
theorem optimize_schedule_delay_bounds_witness :
    ((mkOptResult [mumbaiA] [] true (baseAssign [mumbaiA])).status = "optimal" ∨
        (mkOptResult [mumbaiA] [] true (baseAssign [mumbaiA])).status = "feasible") ∧
    ∀ t ∈ [mumbaiA],
      0 ≤ (mkOptResult [mumbaiA] [] true (baseAssign [mumbaiA])).delay_minutes t.id ∧
      (mkOptResult [mumbaiA] [] true (baseAssign [mumbaiA])).delay_minutes t.id ≤ 60 ∧
      (mkOptResult [mumbaiA] [] true (baseAssign [mumbaiA])).departure_time t.id
          = baseDeparture t
            + (mkOptResult [mumbaiA] [] true (baseAssign [mumbaiA])).delay_minutes t.id :=
  optimize_schedule_delay_bounds [mumbaiA] [] true (baseAssign [mumbaiA])
    (baseAssign_feasible [mumbaiA] [] (by simp))

/-- C1 (refuted by the code): the two enforcement literals created per
headway conflict are fresh and never linked, so the assignment with every
literal false and zero delay is feasible and optimal even though the two
conflicting Mumbai trains depart simultaneously — `optimize_schedule`
certifies `"optimal"` while neither branch of the 5-minute disjunction
holds. -/
theorem optimal_violates_headway_disjunction :
    isOptimal [mumbaiA, mumbaiB] (detectConflicts [mumbaiA, mumbaiB])
        (baseAssign [mumbaiA, mumbaiB]) ∧
    (mkOptResult [mumbaiA, mumbaiB] (detectConflicts [mumbaiA, mumbaiB]) true
        (baseAssign [mumbaiA, mumbaiB])).status = "optimal" ∧
    (detectConflicts [mumbaiA, mumbaiB]).countP
        (fun c => c.conflict_type == "headway") = 1 ∧
    ¬((baseAssign [mumbaiA, mumbaiB]).dep mumbaiA.id + 5
          ≤ (baseAssign [mumbaiA, mumbaiB]).dep mumbaiB.id ∨
      (baseAssign [mumbaiA, mumbaiB]).dep mumbaiB.id + 5
          ≤ (baseAssign [mumbaiA, mumbaiB]).dep mumbaiA.id) := by
  have hdepA : (baseAssign [mumbaiA, mumbaiB]).dep mumbaiA.id = 1000 :=
    (baseAssign_dep _ mumbaiA mumbai_nodup (by simp)).trans mumbai_baseDeparture_A
  have hdepB : (baseAssign [mumbaiA, mumbaiB]).dep mumbaiB.id = 1000 :=
    (baseAssign_dep _ mumbaiB mumbai_nodup (by simp)).trans mumbai_baseDeparture_B
  refine ⟨baseAssign_optimal _ _ mumbai_nodup ?_, rfl, ?_, ?_⟩
  · intro t ht
    simp only [List.mem_cons, List.not_mem_nil, or_false] at ht
    rcases ht with rfl | rfl <;> norm_num [mumbaiA, mumbaiB]
  · rw [mumbai_detect]
    simp [headwayRecord]
  · rw [hdepA, hdepB]
    omega

/-- C5 (refuted by the code): in the 5-train fleet with priorities
[8, 5, 6, 9, 10] and one headway conflict between the priority-5 and
priority-9 trains, the optimum of the model as built assigns zero delay to
every train — including the priority-5 train — and leaves the ordering
disjunction unsatisfied, because the enforcement literals are unconstrained;
no delay is shifted onto the priority-5 train. -/
theorem priority5_absorbs_no_delay :
    (detectConflicts fleet).countP (isHeadwayFor fleet2.id fleet4.id) = 1 ∧
    isOptimal fleet (detectConflicts fleet) (baseAssign fleet) ∧
    (∀ t ∈ fleet, (baseAssign fleet).delay t.id = 0) ∧
    ¬((baseAssign fleet).dep fleet2.id + 5 ≤ (baseAssign fleet).dep fleet4.id ∨
      (baseAssign fleet).dep fleet4.id + 5 ≤ (baseAssign fleet).dep fleet2.id) := by
  refine ⟨?_, baseAssign_optimal _ _ fleet_nodup fleet_priorities, ?_, ?_⟩
  · rw [detect_countP_headway fleet fleet2 fleet4 fleet_nodup
      (by simp [fleet]) (by simp [fleet]) fleet_ord24,
      if_pos fleet_headwayCond24]
  · intro t _
    rfl
  · rw [show fleet2.id = "A2" from rfl, show fleet4.id = "A4" from rfl,
      fleet_dep2, fleet_dep4]
    omega

end Railway

namespace Railway

/-- C6 (amended): only conflicts of type `"headway"` contribute constraints
to the CP model, so the feasible and optimal assignment sets — and with them
the status and per-train solution of `optimize_schedule` — are unchanged
when all platform conflicts are removed from the engine's conflict list;
only the returned `conflicts_resolved` field, which counts the full conflict
list, can differ. -/
theorem optimize_headway_only_model (ts : List Train) (cs : List Conflict)
    (foundOptimal : Bool) (a : Assign) :
    (isFeasible ts cs a ↔ isFeasible ts (headwayOnly cs) a) ∧
    (isOptimal ts cs a ↔ isOptimal ts (headwayOnly cs) a) ∧
    (mkOptResult ts cs foundOptimal a).status
        = (mkOptResult ts (headwayOnly cs) foundOptimal a).status ∧
    (mkOptResult ts cs foundOptimal a).departure_time
        = (mkOptResult ts (headwayOnly cs) foundOptimal a).departure_time ∧
    (mkOptResult ts cs foundOptimal a).arrival_time
        = (mkOptResult ts (headwayOnly cs) foundOptimal a).arrival_time ∧
    (mkOptResult ts cs foundOptimal a).delay_minutes
        = (mkOptResult ts (headwayOnly cs) foundOptimal a).delay_minutes ∧
    (mkOptResult ts cs foundOptimal a).total_delay
        = (mkOptResult ts (headwayOnly cs) foundOptimal a).total_delay ∧
    (mkOptResult ts cs foundOptimal a).conflicts_resolved = cs.length :=
  ⟨isFeasible_headwayOnly ts cs a, isOptimal_headwayOnly ts cs a,
    rfl, rfl, rfl, rfl, rfl, rfl⟩

/-- C6 counterexample: with one platform conflict in the engine's list, the
dictionary `optimize_schedule` returns differs from the one it returns on
the headway-only restriction — `conflicts_resolved` is 1 versus 0. -/
theorem optimize_result_platform_sensitive :
    mkOptResult [platX, platY] (detectConflicts [platX, platY]) true
        (baseAssign [platX, platY])
      ≠ mkOptResult [platX, platY]
          (headwayOnly (detectConflicts [platX, platY])) true
          (baseAssign [platX, platY]) := by
  intro h
  have hc := congrArg OptResult.conflicts_resolved h
  rw [plat_detect] at hc
  simp only [mkOptResult, headwayOnly, platformRecord, List.filter,
    beq_iff_eq] at hc
  simp at hc

/-- C7: `reoptimize_on_disruption` marks each affected present train
`"delayed"` for kind `delay`, removes it for kind `cancellation`, marks it
`"maintenance"` for kind `maintenance`, then recomputes conflicts over the
resulting train set; after a cancellation the removed ids are out of the
train collection, out of `get_throughput_metrics().total_trains`, and out of
every conflict the new detection produces. -/
theorem reoptimize_disruption_spec (affected : List String) (e : EngineState)
    (now : ℚ) :
    (applyDisruption "delay" affected e.trains
        = e.trains.map fun t =>
            if t.id ∈ affected then { t with status := "delayed" } else t) ∧
    (applyDisruption "maintenance" affected e.trains
        = e.trains.map fun t =>
            if t.id ∈ affected then { t with status := "maintenance" } else t) ∧
    (applyDisruption "cancellation" affected e.trains
        = e.trains.filter fun t => decide (t.id ∉ affected)) ∧
    (∀ dtype : String,
        (reoptimizeOnDisruption dtype affected e).conflicts
          = detectConflicts (applyDisruption dtype affected e.trains)) ∧
    (∀ tid ∈ affected,
        tid ∉ (reoptimizeOnDisruption "cancellation" affected e).trains.map Train.id) ∧
    ((getThroughputMetrics (reoptimizeOnDisruption "cancellation" affected e)
          now).total_trains
        = (reoptimizeOnDisruption "cancellation" affected e).trains.length) ∧
    ∀ c ∈ (reoptimizeOnDisruption "cancellation" affected e).conflicts,
      ∀ tid ∈ affected, c.train1_id ≠ tid ∧ c.train2_id ≠ tid := by
  have hno : ∀ s ∈ (reoptimizeOnDisruption "cancellation" affected e).trains.map
      Train.id, s ∉ affected := by
    intro s hs hsaff
    have htr : (reoptimizeOnDisruption "cancellation" affected e).trains
        = e.trains.filter fun t => decide (t.id ∉ affected) :=
      applyDisruption_cancel affected e.trains
    rw [htr, List.mem_map] at hs
    obtain ⟨t, htmem, hid⟩ := hs
    rw [List.mem_filter] at htmem
    have h2 := htmem.2
    rw [decide_eq_true_eq] at h2
    exact h2 (hid ▸ hsaff)
  refine ⟨applyDisruption_delay affected e.trains,
    applyDisruption_maintenance affected e.trains,
    applyDisruption_cancel affected e.trains,
    fun dtype => rfl,
    fun tid htid hmem => hno tid hmem htid,
    rfl, ?_⟩
  intro c hc tid htid
  have hc' : c ∈ detectConflicts
      ((reoptimizeOnDisruption "cancellation" affected e).trains) := hc
  have hids := detect_mem_ids _ c hc'
  constructor
  · intro heq
    exact hno c.train1_id hids.1 (by rw [heq]; exact htid)
  · intro heq
    exact hno c.train2_id hids.2 (by rw [heq]; exact htid)

/-- C8: in every engine state, `get_throughput_metrics` returns a
`throughput_efficiency` identically equal to `punctuality_percentage`, both
computed as running trains over total trains times 100 (with the source's
`max(1, total)` guard, which agrees with the plain ratio in every state). -/
theorem throughput_duplicates_punctuality (e : EngineState) (now : ℚ) :
    (getThroughputMetrics e now).throughput_efficiency
        = (getThroughputMetrics e now).punctuality_percentage ∧
    (getThroughputMetrics e now).punctuality_percentage
        = ((e.trains.filter fun t => t.status == "running").length : ℚ)
            / ((max 1 e.trains.length : ℕ) : ℚ) * 100 ∧
    (getThroughputMetrics e now).punctuality_percentage
        = ((e.trains.filter fun t => t.status == "running").length : ℚ)
            / (e.trains.length : ℚ) * 100 := by
  have h2 : (getThroughputMetrics e now).punctuality_percentage
      = ((e.trains.filter fun t => t.status == "running").length : ℚ)
          / ((max 1 e.trains.length : ℕ) : ℚ) * 100 := rfl
  refine ⟨rfl, h2, ?_⟩
  rw [h2]
  rcases Nat.eq_zero_or_pos e.trains.length with h | h
  · have hrun : (e.trains.filter fun t => t.status == "running").length = 0 := by
      have hle := List.length_filter_le (fun t => t.status == "running") e.trains
      omega
    rw [hrun, h]
    norm_num
  · rw [max_eq_right h]

/-- C9 counterexample: a payload whose `scheduled_arrival` precedes its
`scheduled_departure` passes the schema validation unchanged and enters the
optimizer's input through `create_train`. -/
theorem invalid_arrival_admitted :
    trainCreateValid badTrain = true ∧
    badTrain.scheduled_arrival < badTrain.scheduled_departure ∧
    (toOptTrain badTrain "train_1").scheduled_arrival
        < (toOptTrain badTrain "train_1").scheduled_departure := by
  refine ⟨?_, ?_, ?_⟩
  · rfl
  · norm_num [badTrain]
  · norm_num [badTrain, toOptTrain]

/-- C9 (amended): the mutation boundary enforces exactly the pydantic field
rules — `priority ∈ [1, 10]`, `speed > 0`, `length > 0`, `weight > 0` — and
no relation between `scheduled_arrival` and `scheduled_departure`. -/
theorem trainCreateValid_iff (t : TrainCreate) :
    trainCreateValid t = true ↔
      (1 ≤ t.priority ∧ t.priority ≤ 10 ∧
        0 < t.speed ∧ 0 < t.length ∧ 0 < t.weight) := by
  unfold trainCreateValid
  simp [Bool.and_eq_true, decide_eq_true_eq, and_assoc]

/-- C10: an affected id that is absent from the train collection is skipped
silently — the collection is unchanged — and an unrecognized disruption kind
mutates no train; in every case conflicts are re-detected and the
optimization re-runs over the resulting state. -/
theorem disruption_skips_absent_and_unknown (dtype : String) (tid : String)
    (affected : List String) (e : EngineState) :
    (tid ∉ e.trains.map Train.id →
        applyDisruption dtype [tid] e.trains = e.trains) ∧
    (dtype ≠ "delay" → dtype ≠ "cancellation" → dtype ≠ "maintenance" →
        applyDisruption dtype affected e.trains = e.trains) ∧
    (reoptimizeOnDisruption dtype affected e).trains
        = applyDisruption dtype affected e.trains ∧
    (reoptimizeOnDisruption dtype affected e).conflicts
        = detectConflicts ((reoptimizeOnDisruption dtype affected e).trains) := by
  refine ⟨?_, applyDisruption_unknown dtype affected e.trains, rfl, rfl⟩
  intro hmem
  show disruptStep dtype e.trains tid = e.trains
  have hany : ¬((e.trains.any fun t => t.id == tid) = true) := by
    intro hany
    rw [List.any_eq_true] at hany
    obtain ⟨t, ht, hbeq⟩ := hany
    rw [beq_iff_eq] at hbeq
    exact hmem (hbeq ▸ List.mem_map_of_mem Train.id ht)
  unfold disruptStep
  rw [if_neg hany]

end Railway
